import Mathlib

/-!
Verification of the Polly-API Python client library
(`api/register_user.py`, `api/fetch_polls.py`, `api/poll_client.py`).

Each client function performs one HTTP request, branches on the status
code, and validates the shape of the decoded JSON body.  We abstract the
HTTP transport away: a function under verification receives the server's
`HttpResponse` (status code plus the decoded JSON body, `none` when the
body is empty or not parseable as JSON) and we embed everything the
Python code does from that point on, including the semantics of the
Python primitives it uses on decoded JSON values (`x in y`, `y[k]`,
`y.get(k, d)`, `isinstance`, `str`) and the exceptions they raise.
-/

/-- A decoded JSON value, as produced by `response.json()`.
Python `bool` is kept separate from `int` because `json` decodes
`true`/`false` to `bool`; note however that `isinstance(True, int)`
holds in Python (`bool` is a subclass of `int`), see `isInstInt`. -/
inductive JsonValue where
  | null
  | bool (b : Bool)
  | int (n : Int)
  | str (s : String)
  | arr (elems : List JsonValue)
  | obj (fields : List (String × JsonValue))

mutual

/-- Structural (= Python `==`) equality of decoded JSON values. -/
def jsonBeq : JsonValue → JsonValue → Bool
  | .null, .null => true
  | .bool a, .bool b => a == b
  | .int a, .int b => a == b
  | .str a, .str b => a == b
  | .arr a, .arr b => jsonBeqList a b
  | .obj a, .obj b => jsonBeqFields a b
  | _, _ => false

/-- Element-wise equality of JSON arrays. -/
def jsonBeqList : List JsonValue → List JsonValue → Bool
  | [], [] => true
  | a :: as, b :: bs => jsonBeq a b && jsonBeqList as bs
  | _, _ => false

/-- Entry-wise equality of JSON objects. -/
def jsonBeqFields : List (String × JsonValue) → List (String × JsonValue) → Bool
  | [], [] => true
  | (k, v) :: as, (k', v') :: bs => k == k' && jsonBeq v v' && jsonBeqFields as bs
  | _, _ => false

end

instance : BEq JsonValue := ⟨jsonBeq⟩

/-- Python exceptions that the embedded code can raise.  `valueError`
carries the message built by the client; the others are exceptions
raised by Python primitives (`response.json()`, `.get` on a non-dict,
`in` on a non-container, subscripting). -/
inductive PyErr where
  | valueError (msg : String)
  | jsonDecodeError
  | attributeError
  | typeError
deriving DecidableEq

/-- The observable part of an HTTP response: status code and decoded
JSON body (`none` when `response.json()` raises, i.e. the body is empty
or not parseable as JSON). -/
structure HttpResponse where
  status : Nat
  body : Option JsonValue

/-- First-match lookup of a key in a decoded JSON object (Python dict
keys are unique, so first-match agrees with dict lookup). -/
def lookupKey (k : String) : List (String × JsonValue) → Option JsonValue
  | [] => none
  | (k', v) :: rest => if k' == k then some v else lookupKey k rest

/-- Python `isinstance(v, int)`.  `bool` is a subclass of `int` in
Python, so `isinstance(True, int)` is `True`. -/
def isInstInt : JsonValue → Bool
  | .int _ => true
  | .bool _ => true
  | _ => false

/-- Python `isinstance(v, str)`. -/
def isInstStr : JsonValue → Bool
  | .str _ => true
  | _ => false

/-- Python `isinstance(v, list)`. -/
def isInstList : JsonValue → Bool
  | .arr _ => true
  | _ => false

/-- Is the value a JSON object (Python dict)? -/
def isObjB : JsonValue → Bool
  | .obj _ => true
  | _ => false

/-- The list underlying a JSON array (only ever used behind an
`isinstance(…, list)` guard, so the default branch is unreachable). -/
def asList : JsonValue → List JsonValue
  | .arr xs => xs
  | _ => []

/-- Decidable substring test on character lists (`needle` occurs
contiguously in `hay`), used to embed Python's `s1 in s2`. -/
def subOf : List Char → List Char → Bool
  | n, [] => n.isEmpty
  | n, c :: t => n.isPrefixOf (c :: t) || subOf n t

/-- Python `needle in hay` for strings: contiguous substring test. -/
def strIncludes (needle hay : String) : Bool :=
  subOf needle.data hay.data

mutual

/-- Python `repr` of a decoded JSON value (quote-escaping inside string
reprs is elided; no claim ever stringifies a string containing a quote). -/
def pyRepr : JsonValue → String
  | .null => "None"
  | .bool true => "True"
  | .bool false => "False"
  | .int n => toString n
  | .str s => "'" ++ s ++ "'"
  | .arr xs => "[" ++ pyReprElems xs ++ "]"
  | .obj fs => "\x7b" ++ pyReprFields fs ++ "\x7d"

/-- Comma-separated reprs of array elements. -/
def pyReprElems : List JsonValue → String
  | [] => ""
  | [x] => pyRepr x
  | x :: y :: t => pyRepr x ++ ", " ++ pyReprElems (y :: t)

/-- Comma-separated reprs of object entries. -/
def pyReprFields : List (String × JsonValue) → String
  | [] => ""
  | [(k, v)] => "'" ++ k ++ "': " ++ pyRepr v
  | (k, v) :: e :: t => "'" ++ k ++ "': " ++ pyRepr v ++ ", " ++ pyReprFields (e :: t)

end

/-- Python `str()` of a decoded JSON value (as used by f-strings). -/
def pyStr : JsonValue → String
  | .str s => s
  | v => pyRepr v

/-- Python `needle in container` for a string needle: substring test on
strings, element membership on lists, key membership on dicts,
`TypeError` on scalars. -/
def pyIn (needle : String) : JsonValue → Except PyErr Bool
  | .str s => .ok (strIncludes needle s)
  | .arr xs => .ok (xs.contains (.str needle))
  | .obj fs => .ok (lookupKey needle fs).isSome
  | _ => .error .typeError

/-- Python `container[key]` for a string key: dict lookup; on strings
and lists string subscripts raise `TypeError`, as on scalars.  (The
`KeyError` case is unreachable in this code base: every subscript is
guarded by a preceding `key in container` check.) -/
def pySubscript : JsonValue → String → Except PyErr JsonValue
  | .obj fs, k =>
    match lookupKey k fs with
    | some v => .ok v
    | none => .error .typeError
  | _, _ => .error .typeError

/-- Python `d.get(key, default)`: `AttributeError` when `d` is not a
dict. -/
def dictGet : JsonValue → String → JsonValue → Except PyErr JsonValue
  | .obj fs, k, dflt => .ok ((lookupKey k fs).getD dflt)
  | _, _, _ => .error .attributeError

/-- The shared error-body fallback of `fetch_polls`, `vote_on_poll` and
`get_poll_results`:

    try:
        error_data = response.json()
        error_message = error_data.get("detail", "Unknown error")
    except:
        error_message = f"HTTP {response.status_code}"

The bare `except:` also catches the `AttributeError` of `.get` on a
non-dict body, so this is a total function. -/
def errMessageFallback (status : Nat) (body : Option JsonValue) : String :=
  match body with
  | none => "HTTP " ++ toString status
  | some (.obj fs) => pyStr ((lookupKey "detail" fs).getD (.str "Unknown error"))
  | some _ => "HTTP " ++ toString status

/-- Embedding of `register_user(username, password)` from `api/register_user.py`,
from the point where the server's response is available.  Note the
absence of any `try/except` around `response.json()`: an unparseable
body propagates the JSON decoding error.  The `400` test models
Python's short-circuit `and`. -/
def register_user (resp : HttpResponse) : Except PyErr JsonValue :=
  if resp.status == 200 then
    match resp.body with
    | some j => .ok j
    | none => .error .jsonDecodeError
  else
    match resp.body with
    | none => .error .jsonDecodeError
    | some errorData => do
      let dup ←
        if resp.status == 400 then do
          let d ← dictGet errorData "detail" (.str "")
          pyIn "Username already registered" d
        else
          pure false
      if dup then
        throw (.valueError "Username already registered")
      else do
        let d ← dictGet errorData "detail" (.str "Unknown error")
        throw (.valueError ("Registration failed: " ++ pyStr d))

/-- Embedding of `fetch_polls(skip, limit)` from `api/fetch_polls.py`, from the point
where the server's response is available (the query parameters do not
influence the client-side behaviour being verified). -/
def fetch_polls (resp : HttpResponse) : Except PyErr (List JsonValue) :=
  if resp.status == 200 then
    match resp.body with
    | none => .error .jsonDecodeError
    | some pollsData =>
      match pollsData with
      | .arr polls => .ok polls
      | _ => .error (.valueError "Expected a list of polls in the response")
  else
    .error (.valueError ("Failed to fetch polls: " ++ errMessageFallback resp.status resp.body))

/-- The `for field in required_fields: if field not in poll: raise`
loop of `fetch_polls_with_validation`. -/
def checkPollRequired (i : Nat) (poll : JsonValue) : List String → Except PyErr Unit
  | [] => .ok ()
  | f :: rest => do
    let b ← pyIn f poll
    if b then
      checkPollRequired i poll rest
    else
      throw (.valueError ("Poll at index " ++ toString i ++ " is missing required field: " ++ f))

/-- The inner `for field in option_required_fields` loop of
`fetch_polls_with_validation`. -/
def checkOptionRequired (i j : Nat) (opt : JsonValue) : List String → Except PyErr Unit
  | [] => .ok ()
  | f :: rest => do
    let b ← pyIn f opt
    if b then
      checkOptionRequired i j opt rest
    else
      throw (.valueError ("Poll " ++ toString i ++ ", option " ++ toString j ++ " is missing required field: " ++ f))

/-- The `for j, option in enumerate(poll["options"])` loop of
`fetch_polls_with_validation`. -/
def checkOptions (i : Nat) : Nat → List JsonValue → Except PyErr Unit
  | _, [] => .ok ()
  | j, opt :: rest => do
    checkOptionRequired i j opt ["id", "text", "poll_id"]
    checkOptions i (j + 1) rest

/-- The body of the `for i, poll in enumerate(polls)` loop of
`fetch_polls_with_validation` for a single poll: presence of the five
required fields, then the four type checks (note: `created_at` has no
type check), then the options loop. -/
def validatePoll (i : Nat) (poll : JsonValue) : Except PyErr Unit := do
  checkPollRequired i poll ["id", "question", "created_at", "owner_id", "options"]
  let vId ← pySubscript poll "id"
  if !isInstInt vId then
    throw (.valueError ("Poll at index " ++ toString i ++ ": 'id' must be an integer"))
  let vQ ← pySubscript poll "question"
  if !isInstStr vQ then
    throw (.valueError ("Poll at index " ++ toString i ++ ": 'question' must be a string"))
  let vOw ← pySubscript poll "owner_id"
  if !isInstInt vOw then
    throw (.valueError ("Poll at index " ++ toString i ++ ": 'owner_id' must be an integer"))
  let vOpts ← pySubscript poll "options"
  if !isInstList vOpts then
    throw (.valueError ("Poll at index " ++ toString i ++ ": 'options' must be a list"))
  checkOptions i 0 (asList vOpts)

/-- The whole `for i, poll in enumerate(polls)` loop. -/
def validatePolls : Nat → List JsonValue → Except PyErr Unit
  | _, [] => .ok ()
  | i, poll :: rest => do
    validatePoll i poll
    validatePolls (i + 1) rest

/-- Embedding of `fetch_polls_with_validation(skip, limit)` from
`api/fetch_polls.py`: fetch, validate every poll, and return the
fetched list unchanged. -/
def fetch_polls_with_validation (resp : HttpResponse) : Except PyErr (List JsonValue) := do
  let polls ← fetch_polls resp
  validatePolls 0 polls
  return polls

/-- The `if field not in data: raise ValueError(f"Invalid response:
missing field '{field}'")` loop shared verbatim by `vote_on_poll`
(success path) and `get_poll_results` (top-level fields). -/
def checkMissingField (data : JsonValue) : List String → Except PyErr Unit
  | [] => .ok ()
  | f :: rest => do
    let b ← pyIn f data
    if b then
      checkMissingField data rest
    else
      throw (.valueError ("Invalid response: missing field '" ++ f ++ "'"))

/-- Embedding of `vote_on_poll(poll_id, option_id, access_token)` from
`api/poll_client.py`, from the point where the server's response is
available. -/
def vote_on_poll (resp : HttpResponse) : Except PyErr JsonValue :=
  if resp.status == 200 then
    match resp.body with
    | none => .error .jsonDecodeError
    | some voteData => do
      checkMissingField voteData ["id", "user_id", "option_id", "created_at"]
      return voteData
  else
    let _errorMessage := errMessageFallback resp.status resp.body
    if resp.status == 401 then
      .error (.valueError "Unauthorized: Invalid or expired access token")
    else if resp.status == 404 then
      .error (.valueError "Poll or option not found")
    else
      .error (.valueError ("Failed to vote on poll: " ++ errMessageFallback resp.status resp.body))

/-- The `for field in result_required_fields` presence loop of
`get_poll_results`. -/
def checkResultFields (k : Nat) (result : JsonValue) : List String → Except PyErr Unit
  | [] => .ok ()
  | f :: rest => do
    let b ← pyIn f result
    if b then
      checkResultFields k result rest
    else
      throw (.valueError ("Invalid response: result " ++ toString k ++ " missing field '" ++ f ++ "'"))

/-- The per-entry validation of `get_poll_results`: presence of the
three required fields, then the three type checks. -/
def checkResultEntry (k : Nat) (result : JsonValue) : Except PyErr Unit := do
  checkResultFields k result ["option_id", "text", "vote_count"]
  let v1 ← pySubscript result "option_id"
  if !isInstInt v1 then
    throw (.valueError ("Invalid response: result " ++ toString k ++ " 'option_id' must be integer"))
  let v2 ← pySubscript result "text"
  if !isInstStr v2 then
    throw (.valueError ("Invalid response: result " ++ toString k ++ " 'text' must be string"))
  let v3 ← pySubscript result "vote_count"
  if !isInstInt v3 then
    throw (.valueError ("Invalid response: result " ++ toString k ++ " 'vote_count' must be integer"))

/-- The `for i, result in enumerate(results_data["results"])` loop of
`get_poll_results`. -/
def checkResultEntries : Nat → List JsonValue → Except PyErr Unit
  | _, [] => .ok ()
  | k, r :: rest => do
    checkResultEntry k r
    checkResultEntries (k + 1) rest

/-- Embedding of `get_poll_results(poll_id)` from `api/poll_client.py`, from the
point where the server's response is available. -/
def get_poll_results (resp : HttpResponse) : Except PyErr JsonValue :=
  if resp.status == 200 then
    match resp.body with
    | none => .error .jsonDecodeError
    | some resultsData => do
      checkMissingField resultsData ["poll_id", "question", "results"]
      let rs ← pySubscript resultsData "results"
      if !isInstList rs then
        throw (.valueError "Invalid response: 'results' must be a list")
      checkResultEntries 0 (asList rs)
      return resultsData
  else
    let _errorMessage := errMessageFallback resp.status resp.body
    if resp.status == 404 then
      .error (.valueError "Poll not found")
    else
      .error (.valueError ("Failed to get poll results: " ++ errMessageFallback resp.status resp.body))

/-! ## Specification-side vocabulary

Decidable predicates and an explicit "first schema violation"
computation used to state the claims.  `firstIssue` mirrors the exact
check order of `fetch_polls_with_validation` so that the fail-fast
behaviour can be stated as an equation. -/

/-- The five required poll fields, in the source's order. -/
def pollRequiredFields : List String :=
  ["id", "question", "created_at", "owner_id", "options"]

/-- The three required option fields, in the source's order. -/
def optionRequiredFields : List String :=
  ["id", "text", "poll_id"]

/-- A well-formed option object: a JSON object carrying the three
required keys (the source checks presence only). -/
def wellFormedOption (opt : JsonValue) : Bool :=
  match opt with
  | .obj fs =>
    (lookupKey "id" fs).isSome && (lookupKey "text" fs).isSome && (lookupKey "poll_id" fs).isSome
  | _ => false

/-- A well-formed poll object: `id : int`, `question : str`,
`created_at` present (its value is never type-checked), `owner_id :
int`, `options` a list of well-formed options. -/
def wellFormedPoll (poll : JsonValue) : Bool :=
  match poll with
  | .obj pf =>
    match lookupKey "id" pf, lookupKey "question" pf, lookupKey "created_at" pf,
        lookupKey "owner_id" pf, lookupKey "options" pf with
    | some vId, some vQ, some _, some vOw, some (.arr opts) =>
      isInstInt vId && isInstStr vQ && isInstInt vOw && opts.all wellFormedOption
    | _, _, _, _, _ => false
  | _ => false

/-- A structurally sane poll element: a JSON object whose `options`
value, when it is a list, contains only JSON objects.  This is the
domain on which the validator produces `ValueError` messages rather
than stray `TypeError`s from Python primitives. -/
def structuredPoll (poll : JsonValue) : Bool :=
  match poll with
  | .obj pf =>
    match lookupKey "options" pf with
    | some (.arr opts) => opts.all isObjB
    | _ => true
  | _ => false

/-- The claim's hypothesis on a single poll: some required field is
missing, or one of `id`/`question`/`owner_id`/`options` is present with
the wrong type. -/
def pollFieldViolation (poll : JsonValue) : Bool :=
  match poll with
  | .obj pf =>
    pollRequiredFields.any (fun f => (lookupKey f pf).isNone)
      || (match lookupKey "id" pf with | some v => !isInstInt v | none => false)
      || (match lookupKey "question" pf with | some v => !isInstStr v | none => false)
      || (match lookupKey "owner_id" pf with | some v => !isInstInt v | none => false)
      || (match lookupKey "options" pf with | some v => !isInstList v | none => false)
  | _ => false

/-- A schema violation as reported by `fetch_polls_with_validation`:
a missing poll field, a mistyped poll field (with the expected-type
phrase of the source's message), or a missing option field (with the
option's index). -/
inductive Issue where
  | missing (f : String)
  | badType (f : String) (t : String)
  | optMissing (j : Nat) (f : String)

/-- The field name an issue is about. -/
def issueField : Issue → String
  | .missing f => f
  | .badType f _ => f
  | .optMissing _ f => f

/-- The exact `ValueError` message the source raises for an issue found
in the poll at index `i`. -/
def renderIssue (i : Nat) : Issue → String
  | .missing f => "Poll at index " ++ toString i ++ " is missing required field: " ++ f
  | .badType f t => "Poll at index " ++ toString i ++ ": '" ++ f ++ "' must be " ++ t
  | .optMissing j f =>
    "Poll " ++ toString i ++ ", option " ++ toString j ++ " is missing required field: " ++ f

/-- First missing required field of an option object, in check order. -/
def optFirstMissing (opt : JsonValue) : Option String :=
  match opt with
  | .obj fs => optionRequiredFields.find? (fun f => (lookupKey f fs).isNone)
  | _ => none

/-- First option-level issue in a list of options, `j` being the index
of the first of them. -/
def firstOptIssue : Nat → List JsonValue → Option Issue
  | _, [] => none
  | j, opt :: rest =>
    match optFirstMissing opt with
    | some f => some (.optMissing j f)
    | none => firstOptIssue (j + 1) rest

/-- The first schema violation of a single (structured) poll, in the
validator's exact check order: field presence in `pollRequiredFields`
order, then the four type checks, then the options in order. -/
def firstIssue (poll : JsonValue) : Option Issue :=
  match poll with
  | .obj pf =>
    match pollRequiredFields.find? (fun f => (lookupKey f pf).isNone) with
    | some f => some (.missing f)
    | none =>
      match lookupKey "id" pf, lookupKey "question" pf, lookupKey "owner_id" pf,
          lookupKey "options" pf with
      | some vId, some vQ, some vOw, some vOpts =>
        if !isInstInt vId then some (.badType "id" "an integer")
        else if !isInstStr vQ then some (.badType "question" "a string")
        else if !isInstInt vOw then some (.badType "owner_id" "an integer")
        else if !isInstList vOpts then some (.badType "options" "a list")
        else firstOptIssue 0 (asList vOpts)
      | _, _, _, _ => none
  | _ => none

/-- The first schema violation in a poll list (poll-major order),
together with the absolute index of the offending poll. -/
def firstListIssue : Nat → List JsonValue → Option (Nat × Issue)
  | _, [] => none
  | i, poll :: rest =>
    match firstIssue poll with
    | some iss => some (i, iss)
    | none => firstListIssue (i + 1) rest

/-- Required top-level fields of a poll-results body, in the source's
order. -/
def resultsRequiredFields : List String :=
  ["poll_id", "question", "results"]

/-- Required fields of one results entry, in the source's order. -/
def resultRequiredFields : List String :=
  ["option_id", "text", "vote_count"]

/-- A schema violation as reported by `get_poll_results` on a 200
response: missing top-level field, non-list `results`, or a missing or
mistyped field of the entry at index `k`. -/
inductive RIssue where
  | topMissing (f : String)
  | notList
  | entryMissing (k : Nat) (f : String)
  | entryType (k : Nat) (f : String) (t : String)

/-- The exact `ValueError` message `get_poll_results` raises for a
results-schema violation. -/
def renderRIssue : RIssue → String
  | .topMissing f => "Invalid response: missing field '" ++ f ++ "'"
  | .notList => "Invalid response: 'results' must be a list"
  | .entryMissing k f =>
    "Invalid response: result " ++ toString k ++ " missing field '" ++ f ++ "'"
  | .entryType k f t =>
    "Invalid response: result " ++ toString k ++ " '" ++ f ++ "' must be " ++ t

/-- First violation of one results entry, in the source's check order:
presence of the three fields, then the three type checks. -/
def entryFirstIssue (k : Nat) (r : JsonValue) : Option RIssue :=
  match r with
  | .obj fs =>
    match resultRequiredFields.find? (fun f => (lookupKey f fs).isNone) with
    | some f => some (.entryMissing k f)
    | none =>
      match lookupKey "option_id" fs, lookupKey "text" fs, lookupKey "vote_count" fs with
      | some v1, some v2, some v3 =>
        if !isInstInt v1 then some (.entryType k "option_id" "integer")
        else if !isInstStr v2 then some (.entryType k "text" "string")
        else if !isInstInt v3 then some (.entryType k "vote_count" "integer")
        else none
      | _, _, _ => none
  | _ => none

/-- First violation among the results entries, `k` being the index of
the first of them. -/
def entriesFirstIssue : Nat → List JsonValue → Option RIssue
  | _, [] => none
  | k, r :: rest =>
    match entryFirstIssue k r with
    | some iss => some iss
    | none => entriesFirstIssue (k + 1) rest

/-- The first schema violation of a (structured) poll-results body, in
the exact check order of `get_poll_results`. -/
def resultsFirstIssue (b : JsonValue) : Option RIssue :=
  match b with
  | .obj fs =>
    match resultsRequiredFields.find? (fun f => (lookupKey f fs).isNone) with
    | some f => some (.topMissing f)
    | none =>
      match lookupKey "results" fs with
      | some rv =>
        if !isInstList rv then some .notList
        else entriesFirstIssue 0 (asList rv)
      | none => none
  | _ => none

/-- A structurally sane poll-results body: a JSON object whose
`results` value, when it is a list, contains only JSON objects. -/
def structuredResults (b : JsonValue) : Bool :=
  match b with
  | .obj fs =>
    match lookupKey "results" fs with
    | some (.arr es) => es.all isObjB
    | _ => true
  | _ => false

/-- A poll object with the required shape except that the `created_at`
value is an arbitrary JSON value. -/
def pollWithCreatedAt (idv : Int) (q : String) (ca : JsonValue) (ow : Int)
    (opts : List JsonValue) : JsonValue :=
  .obj [("id", .int idv), ("question", .str q), ("created_at", ca),
    ("owner_id", .int ow), ("options", .arr opts)]

/-! ## Substring lemmas -/

theorem isPrefixOf_self_append (n b : List Char) : n.isPrefixOf (n ++ b) = true := by
  induction n with
  | nil => simp [List.isPrefixOf]
  | cons c t ih => simp [List.isPrefixOf, ih]

theorem subOf_self_append (n b : List Char) : subOf n (n ++ b) = true := by
  cases n with
  | nil =>
    cases b with
    | nil => rfl
    | cons c t => simp [subOf, List.isPrefixOf]
  | cons c t =>
    simp [subOf, isPrefixOf_self_append]

theorem subOf_append_left (a : List Char) {n h : List Char}
    (hs : subOf n h = true) : subOf n (a ++ h) = true := by
  induction a with
  | nil => simpa using hs
  | cons c t ih => simp [subOf, ih]

theorem subOf_mid (a n b : List Char) : subOf n (a ++ (n ++ b)) = true :=
  subOf_append_left a (subOf_self_append n b)

theorem strIncludes_of_data {n m : String} (h : subOf n.data m.data = true) :
    strIncludes n m = true := h

/-! ## Characterization of the poll validator -/

theorem checkPollRequired_obj (i : Nat) (pf : List (String × JsonValue))
    (fields : List String) :
    checkPollRequired i (.obj pf) fields =
      match fields.find? (fun f => (lookupKey f pf).isNone) with
      | some f =>
        .error (.valueError ("Poll at index " ++ toString i ++ " is missing required field: " ++ f))
      | none => .ok () := by
  induction fields with
  | nil => rfl
  | cons f rest ih =>
    cases h : lookupKey f pf with
    | none =>
      simp [checkPollRequired, pyIn, h, Bind.bind, Except.bind, pure, Except.pure, List.find?,
        throw, throwThe, MonadExceptOf.throw]
    | some v =>
      simp [checkPollRequired, pyIn, h, Bind.bind, Except.bind, pure, Except.pure, List.find?, ih]

theorem strAppend_assoc (a b c : String) : a ++ b ++ c = a ++ (b ++ c) := by
  apply String.ext
  simp [String.data_append, List.append_assoc]

theorem checkOptionRequired_obj (i j : Nat) (fs : List (String × JsonValue))
    (fields : List String) :
    checkOptionRequired i j (.obj fs) fields =
      match fields.find? (fun f => (lookupKey f fs).isNone) with
      | some f =>
        .error (.valueError
          ("Poll " ++ toString i ++ ", option " ++ toString j ++ " is missing required field: " ++ f))
      | none => .ok () := by
  induction fields with
  | nil => rfl
  | cons f rest ih =>
    cases h : lookupKey f fs with
    | none =>
      simp [checkOptionRequired, pyIn, h, Bind.bind, Except.bind, pure, Except.pure, List.find?,
        throw, throwThe, MonadExceptOf.throw]
    | some v =>
      simp [checkOptionRequired, pyIn, h, Bind.bind, Except.bind, pure, Except.pure, List.find?, ih]

theorem checkOptions_eq (i : Nat) (j : Nat) (opts : List JsonValue)
    (hs : opts.all isObjB = true) :
    checkOptions i j opts =
      match firstOptIssue j opts with
      | none => .ok ()
      | some iss => .error (.valueError (renderIssue i iss)) := by
  induction opts generalizing j with
  | nil => rfl
  | cons o rest ih =>
    simp only [List.all_cons, Bool.and_eq_true] at hs
    obtain ⟨ho, hrest⟩ := hs
    cases o with
    | obj fs =>
      rw [show checkOptions i j (.obj fs :: rest) =
          (do
            checkOptionRequired i j (.obj fs) ["id", "text", "poll_id"]
            checkOptions i (j + 1) rest) from rfl]
      rw [checkOptionRequired_obj]
      cases hfind : optionRequiredFields.find? (fun f => (lookupKey f fs).isNone) with
      | some f =>
        simp only [optionRequiredFields] at hfind
        simp [hfind, Bind.bind, Except.bind, pure, Except.pure, firstOptIssue, optFirstMissing,
          optionRequiredFields, renderIssue]
      | none =>
        simp only [optionRequiredFields] at hfind
        simp [hfind, Bind.bind, Except.bind, pure, Except.pure, firstOptIssue, optFirstMissing,
          optionRequiredFields, ih (j + 1) hrest]
    | null => simp [isObjB] at ho
    | bool b => simp [isObjB] at ho
    | int n => simp [isObjB] at ho
    | str s => simp [isObjB] at ho
    | arr xs => simp [isObjB] at ho

theorem validatePoll_eq (i : Nat) (poll : JsonValue) (hs : structuredPoll poll = true) :
    validatePoll i poll =
      match firstIssue poll with
      | none => .ok ()
      | some iss => .error (.valueError (renderIssue i iss)) := by
  cases poll with
  | null => simp [structuredPoll] at hs
  | bool b => simp [structuredPoll] at hs
  | int n => simp [structuredPoll] at hs
  | str s => simp [structuredPoll] at hs
  | arr xs => simp [structuredPoll] at hs
  | obj pf =>
    cases h1 : lookupKey "id" pf with
    | none =>
      simp [validatePoll, checkPollRequired_obj, firstIssue, pollRequiredFields,
        List.find?, h1, Bind.bind, Except.bind, pure, Except.pure, renderIssue]
    | some vId =>
    cases h2 : lookupKey "question" pf with
    | none =>
      simp [validatePoll, checkPollRequired_obj, firstIssue, pollRequiredFields,
        List.find?, h1, h2, Bind.bind, Except.bind, pure, Except.pure, renderIssue]
    | some vQ =>
    cases h3 : lookupKey "created_at" pf with
    | none =>
      simp [validatePoll, checkPollRequired_obj, firstIssue, pollRequiredFields,
        List.find?, h1, h2, h3, Bind.bind, Except.bind, pure, Except.pure, renderIssue]
    | some vCa =>
    cases h4 : lookupKey "owner_id" pf with
    | none =>
      simp [validatePoll, checkPollRequired_obj, firstIssue, pollRequiredFields,
        List.find?, h1, h2, h3, h4, Bind.bind, Except.bind, pure, Except.pure, renderIssue]
    | some vOw =>
    cases h5 : lookupKey "options" pf with
    | none =>
      simp [validatePoll, checkPollRequired_obj, firstIssue, pollRequiredFields,
        List.find?, h1, h2, h3, h4, h5, Bind.bind, Except.bind, pure, Except.pure, renderIssue]
    | some vOpts =>
    cases hti : isInstInt vId with
    | false =>
      simp [validatePoll, checkPollRequired_obj, firstIssue, pollRequiredFields,
        List.find?, h1, h2, h3, h4, h5, hti, pySubscript, Bind.bind, Except.bind, pure, Except.pure,
        renderIssue, throw, throwThe, MonadExceptOf.throw, strAppend_assoc]
    | true =>
    cases htq : isInstStr vQ with
    | false =>
      simp [validatePoll, checkPollRequired_obj, firstIssue, pollRequiredFields,
        List.find?, h1, h2, h3, h4, h5, hti, htq, pySubscript, Bind.bind, Except.bind, pure, Except.pure,
        renderIssue, throw, throwThe, MonadExceptOf.throw, strAppend_assoc]
    | true =>
    cases hto : isInstInt vOw with
    | false =>
      simp [validatePoll, checkPollRequired_obj, firstIssue, pollRequiredFields,
        List.find?, h1, h2, h3, h4, h5, hti, htq, hto, pySubscript, Bind.bind, Except.bind, pure, Except.pure,
        renderIssue, throw, throwThe, MonadExceptOf.throw, strAppend_assoc]
    | true =>
    cases vOpts with
    | arr opts =>
      have hall : opts.all isObjB = true := by
        simpa [structuredPoll, h5] using hs
      simp [validatePoll, checkPollRequired_obj, firstIssue, pollRequiredFields,
        List.find?, h1, h2, h3, h4, h5, hti, htq, hto, pySubscript, Bind.bind, Except.bind, pure, Except.pure,
        isInstList, asList, checkOptions_eq i 0 opts hall]
    | null =>
      simp [validatePoll, checkPollRequired_obj, firstIssue, pollRequiredFields,
        List.find?, h1, h2, h3, h4, h5, hti, htq, hto, pySubscript, Bind.bind, Except.bind, pure, Except.pure,
        isInstList, renderIssue, throw, throwThe, MonadExceptOf.throw, strAppend_assoc]
    | bool b =>
      simp [validatePoll, checkPollRequired_obj, firstIssue, pollRequiredFields,
        List.find?, h1, h2, h3, h4, h5, hti, htq, hto, pySubscript, Bind.bind, Except.bind, pure, Except.pure,
        isInstList, renderIssue, throw, throwThe, MonadExceptOf.throw, strAppend_assoc]
    | int n =>
      simp [validatePoll, checkPollRequired_obj, firstIssue, pollRequiredFields,
        List.find?, h1, h2, h3, h4, h5, hti, htq, hto, pySubscript, Bind.bind, Except.bind, pure, Except.pure,
        isInstList, renderIssue, throw, throwThe, MonadExceptOf.throw, strAppend_assoc]
    | str s =>
      simp [validatePoll, checkPollRequired_obj, firstIssue, pollRequiredFields,
        List.find?, h1, h2, h3, h4, h5, hti, htq, hto, pySubscript, Bind.bind, Except.bind, pure, Except.pure,
        isInstList, renderIssue, throw, throwThe, MonadExceptOf.throw, strAppend_assoc]
    | obj ofs =>
      simp [validatePoll, checkPollRequired_obj, firstIssue, pollRequiredFields,
        List.find?, h1, h2, h3, h4, h5, hti, htq, hto, pySubscript, Bind.bind, Except.bind, pure, Except.pure,
        isInstList, renderIssue, throw, throwThe, MonadExceptOf.throw, strAppend_assoc]

theorem validatePolls_eq (i : Nat) (polls : List JsonValue)
    (hs : polls.all structuredPoll = true) :
    validatePolls i polls =
      match firstListIssue i polls with
      | none => .ok ()
      | some (k, iss) => .error (.valueError (renderIssue k iss)) := by
  induction polls generalizing i with
  | nil => rfl
  | cons p rest ih =>
    simp only [List.all_cons, Bool.and_eq_true] at hs
    obtain ⟨hp, hrest⟩ := hs
    rw [show validatePolls i (p :: rest) =
        (do
          validatePoll i p
          validatePolls (i + 1) rest) from rfl]
    rw [validatePoll_eq i p hp]
    cases hfi : firstIssue p with
    | some iss =>
      simp [hfi, firstListIssue, Bind.bind, Except.bind, pure, Except.pure]
    | none =>
      simp [hfi, firstListIssue, Bind.bind, Except.bind, pure, Except.pure,
        ih (i + 1) hrest]

theorem fetch_polls_with_validation_eq (resp : HttpResponse) (polls : List JsonValue)
    (h200 : resp.status = 200) (hb : resp.body = some (.arr polls))
    (hs : polls.all structuredPoll = true) :
    fetch_polls_with_validation resp =
      match firstListIssue 0 polls with
      | none => .ok polls
      | some (k, iss) => .error (.valueError (renderIssue k iss)) := by
  have hf : fetch_polls resp = .ok polls := by
    simp [fetch_polls, h200, hb]
  rw [show fetch_polls_with_validation resp =
      (do
        let polls ← fetch_polls resp
        validatePolls 0 polls
        pure polls) from rfl]
  rw [hf]
  simp only [Bind.bind, Except.bind]
  rw [validatePolls_eq 0 polls hs]
  cases hli : firstListIssue 0 polls with
  | none => rfl
  | some ki => rfl

theorem wellFormedOption_parts (o : JsonValue) (h : wellFormedOption o = true) :
    isObjB o = true ∧ optFirstMissing o = none := by
  cases o with
  | obj fs =>
    cases hid : lookupKey "id" fs with
    | none => simp [wellFormedOption, hid] at h
    | some v1 =>
    cases htx : lookupKey "text" fs with
    | none => simp [wellFormedOption, hid, htx] at h
    | some v2 =>
    cases hpl : lookupKey "poll_id" fs with
    | none => simp [wellFormedOption, hid, htx, hpl] at h
    | some v3 =>
      refine ⟨rfl, ?_⟩
      simp [optFirstMissing, optionRequiredFields, List.find?, hid, htx, hpl]
  | null => simp [wellFormedOption] at h
  | bool b => simp [wellFormedOption] at h
  | int n => simp [wellFormedOption] at h
  | str s => simp [wellFormedOption] at h
  | arr xs => simp [wellFormedOption] at h

theorem firstOptIssue_none (opts : List JsonValue)
    (h : opts.all wellFormedOption = true) (j : Nat) : firstOptIssue j opts = none := by
  induction opts generalizing j with
  | nil => rfl
  | cons o rest ih =>
    simp only [List.all_cons, Bool.and_eq_true] at h
    obtain ⟨ho, hrest⟩ := h
    simp [firstOptIssue, (wellFormedOption_parts o ho).2, ih hrest]

theorem all_isObjB_of_wf (opts : List JsonValue)
    (h : opts.all wellFormedOption = true) : opts.all isObjB = true := by
  induction opts with
  | nil => rfl
  | cons o rest ih =>
    simp only [List.all_cons, Bool.and_eq_true] at h ⊢
    exact ⟨(wellFormedOption_parts o h.1).1, ih h.2⟩

theorem wellFormedPoll_props (p : JsonValue) (h : wellFormedPoll p = true) :
    structuredPoll p = true ∧ firstIssue p = none := by
  cases p with
  | null => simp [wellFormedPoll] at h
  | bool b => simp [wellFormedPoll] at h
  | int n => simp [wellFormedPoll] at h
  | str s => simp [wellFormedPoll] at h
  | arr xs => simp [wellFormedPoll] at h
  | obj pf =>
    cases h1 : lookupKey "id" pf with
    | none => simp [wellFormedPoll, h1] at h
    | some vId =>
    cases h2 : lookupKey "question" pf with
    | none => simp [wellFormedPoll, h1, h2] at h
    | some vQ =>
    cases h3 : lookupKey "created_at" pf with
    | none => simp [wellFormedPoll, h1, h2, h3] at h
    | some vCa =>
    cases h4 : lookupKey "owner_id" pf with
    | none => simp [wellFormedPoll, h1, h2, h3, h4] at h
    | some vOw =>
    cases h5 : lookupKey "options" pf with
    | none => simp [wellFormedPoll, h1, h2, h3, h4, h5] at h
    | some vOpts =>
    cases vOpts with
    | arr opts =>
      simp only [wellFormedPoll, h1, h2, h3, h4, h5, Bool.and_eq_true] at h
      obtain ⟨⟨⟨hti, htq⟩, hto⟩, hall⟩ := h
      constructor
      · simp [structuredPoll, h5, all_isObjB_of_wf opts hall]
      · simp [firstIssue, pollRequiredFields, List.find?, h1, h2, h3, h4, h5,
          hti, htq, hto, isInstList, asList, firstOptIssue_none opts hall 0]
    | null => simp [wellFormedPoll, h1, h2, h3, h4, h5] at h
    | bool b => simp [wellFormedPoll, h1, h2, h3, h4, h5] at h
    | int n => simp [wellFormedPoll, h1, h2, h3, h4, h5] at h
    | str s => simp [wellFormedPoll, h1, h2, h3, h4, h5] at h
    | obj ofs => simp [wellFormedPoll, h1, h2, h3, h4, h5] at h

theorem all_structured_of_wf (polls : List JsonValue)
    (h : polls.all wellFormedPoll = true) : polls.all structuredPoll = true := by
  induction polls with
  | nil => rfl
  | cons p rest ih =>
    simp only [List.all_cons, Bool.and_eq_true] at h ⊢
    exact ⟨(wellFormedPoll_props p h.1).1, ih h.2⟩

theorem firstListIssue_none_of_wf (i : Nat) (polls : List JsonValue)
    (h : polls.all wellFormedPoll = true) : firstListIssue i polls = none := by
  induction polls generalizing i with
  | nil => rfl
  | cons p rest ih =>
    simp only [List.all_cons, Bool.and_eq_true] at h
    simp [firstListIssue, (wellFormedPoll_props p h.1).2, ih (i + 1) h.2]

/-- Claim C1: on a 200 response whose body is a list of well-formed poll
objects (`id : int`, `question : str`, `created_at` present,
`owner_id : int`, `options` a list of option objects carrying `id`,
`text`, `poll_id`), `fetch_polls_with_validation` returns exactly that
list, unchanged: validation is a transparent round-trip on valid
input. -/
theorem fetch_polls_with_validation_roundtrip (resp : HttpResponse)
    (polls : List JsonValue) (h200 : resp.status = 200)
    (hb : resp.body = some (.arr polls))
    (hwf : polls.all wellFormedPoll = true) :
    fetch_polls_with_validation resp = .ok polls := by
  rw [fetch_polls_with_validation_eq resp polls h200 hb (all_structured_of_wf polls hwf)]
  rw [firstListIssue_none_of_wf 0 polls hwf]

/-- Witness for C1 at a concrete two-option poll list. -/
theorem fetch_polls_with_validation_roundtrip_witness :
    (HttpResponse.mk 200 (some (.arr
        [.obj [("id", .int 1), ("question", .str "Best color?"),
          ("created_at", .str "2024-01-01T00:00:00Z"), ("owner_id", .int 7),
          ("options", .arr
            [.obj [("id", .int 10), ("text", .str "Red"), ("poll_id", .int 1)],
             .obj [("id", .int 11), ("text", .str "Blue"), ("poll_id", .int 1)]])]]))).status = 200 ∧
    ([.obj [("id", .int 1), ("question", .str "Best color?"),
        ("created_at", .str "2024-01-01T00:00:00Z"), ("owner_id", .int 7),
        ("options", .arr
          [.obj [("id", .int 10), ("text", .str "Red"), ("poll_id", .int 1)],
           .obj [("id", .int 11), ("text", .str "Blue"), ("poll_id", .int 1)]])]] :
      List JsonValue).all wellFormedPoll = true ∧
    fetch_polls_with_validation (HttpResponse.mk 200 (some (.arr
        [.obj [("id", .int 1), ("question", .str "Best color?"),
          ("created_at", .str "2024-01-01T00:00:00Z"), ("owner_id", .int 7),
          ("options", .arr
            [.obj [("id", .int 10), ("text", .str "Red"), ("poll_id", .int 1)],
             .obj [("id", .int 11), ("text", .str "Blue"), ("poll_id", .int 1)]])]]))) =
      .ok [.obj [("id", .int 1), ("question", .str "Best color?"),
        ("created_at", .str "2024-01-01T00:00:00Z"), ("owner_id", .int 7),
        ("options", .arr
          [.obj [("id", .int 10), ("text", .str "Red"), ("poll_id", .int 1)],
           .obj [("id", .int 11), ("text", .str "Blue"), ("poll_id", .int 1)]])]] :=
  ⟨rfl, by rfl, fetch_polls_with_validation_roundtrip _ _ rfl rfl (by rfl)⟩

/-- Claim C9: `fetch_polls_with_validation` never type-checks `created_at`:
a poll carrying a `created_at` key with an arbitrary JSON value (of any
type) and otherwise well-formed fields passes validation, and the value
is returned unchanged. -/
theorem created_at_never_type_checked (ca : JsonValue) (idv ow : Int) (q : String)
    (opts : List JsonValue) (hopts : opts.all wellFormedOption = true) :
    fetch_polls_with_validation
        (HttpResponse.mk 200 (some (.arr [pollWithCreatedAt idv q ca ow opts]))) =
      .ok [pollWithCreatedAt idv q ca ow opts] := by
  apply fetch_polls_with_validation_roundtrip _ _ rfl rfl
  simp [pollWithCreatedAt, wellFormedPoll, lookupKey, isInstInt, isInstStr, hopts]

/-- Witness for C9 with an integer-valued (non-string) `created_at`. -/
theorem created_at_never_type_checked_witness :
    ([JsonValue.obj [("id", .int 3), ("text", .str "A"), ("poll_id", .int 5)]].all
        wellFormedOption = true) ∧
    fetch_polls_with_validation
        (HttpResponse.mk 200 (some (.arr [pollWithCreatedAt 1 "Q?" (.int 42) 7
          [.obj [("id", .int 3), ("text", .str "A"), ("poll_id", .int 5)]]]))) =
      .ok [pollWithCreatedAt 1 "Q?" (.int 42) 7
        [.obj [("id", .int 3), ("text", .str "A"), ("poll_id", .int 5)]]] :=
  ⟨by rfl, created_at_never_type_checked (.int 42) 1 7 "Q?"
    [.obj [("id", .int 3), ("text", .str "A"), ("poll_id", .int 5)]] (by rfl)⟩

theorem strAppend_empty (s : String) : s ++ "" = s :=
  String.ext (by simp [String.data_append])

theorem strIncludes_of_decomp (n m a b : String) (h : m = a ++ (n ++ b)) :
    strIncludes n m = true := by
  subst h
  simp only [strIncludes, String.data_append]
  exact subOf_mid _ _ _

theorem renderIssue_includes_index (i : Nat) (iss : Issue) :
    strIncludes (toString i) (renderIssue i iss) = true := by
  cases iss with
  | missing f =>
    exact strIncludes_of_decomp (toString i) (renderIssue i (.missing f))
      "Poll at index " (" is missing required field: " ++ f)
      (by simp [renderIssue, strAppend_assoc])
  | badType f t =>
    exact strIncludes_of_decomp (toString i) (renderIssue i (.badType f t))
      "Poll at index " (": '" ++ (f ++ ("' must be " ++ t)))
      (by simp [renderIssue, strAppend_assoc])
  | optMissing j f =>
    exact strIncludes_of_decomp (toString i) (renderIssue i (.optMissing j f))
      "Poll " (", option " ++ (toString j ++ (" is missing required field: " ++ f)))
      (by simp [renderIssue, strAppend_assoc])

theorem renderIssue_includes_field (i : Nat) (iss : Issue) :
    strIncludes (issueField iss) (renderIssue i iss) = true := by
  cases iss with
  | missing f =>
    exact strIncludes_of_decomp f (renderIssue i (.missing f))
      ("Poll at index " ++ (toString i ++ " is missing required field: ")) ""
      (by simp [renderIssue, issueField, strAppend_assoc, strAppend_empty])
  | badType f t =>
    exact strIncludes_of_decomp f (renderIssue i (.badType f t))
      ("Poll at index " ++ (toString i ++ ": '")) ("' must be " ++ t)
      (by simp [renderIssue, issueField, strAppend_assoc])
  | optMissing j f =>
    exact strIncludes_of_decomp f (renderIssue i (.optMissing j f))
      ("Poll " ++ (toString i ++ (", option " ++ (toString j ++ " is missing required field: ")))) ""
      (by simp [renderIssue, issueField, strAppend_assoc, strAppend_empty])

theorem firstIssue_of_violation (p : JsonValue) (hs : structuredPoll p = true)
    (hv : pollFieldViolation p = true) : firstIssue p ≠ none := by
  intro h
  cases p with
  | null => simp [pollFieldViolation] at hv
  | bool b => simp [pollFieldViolation] at hv
  | int n => simp [pollFieldViolation] at hv
  | str s => simp [pollFieldViolation] at hv
  | arr xs => simp [pollFieldViolation] at hv
  | obj pf =>
    cases h1 : lookupKey "id" pf with
    | none => simp [firstIssue, pollRequiredFields, List.find?, h1] at h
    | some vId =>
    cases h2 : lookupKey "question" pf with
    | none => simp [firstIssue, pollRequiredFields, List.find?, h1, h2] at h
    | some vQ =>
    cases h3 : lookupKey "created_at" pf with
    | none => simp [firstIssue, pollRequiredFields, List.find?, h1, h2, h3] at h
    | some vCa =>
    cases h4 : lookupKey "owner_id" pf with
    | none => simp [firstIssue, pollRequiredFields, List.find?, h1, h2, h3, h4] at h
    | some vOw =>
    cases h5 : lookupKey "options" pf with
    | none => simp [firstIssue, pollRequiredFields, List.find?, h1, h2, h3, h4, h5] at h
    | some vOpts =>
    cases hti : isInstInt vId with
    | false =>
      simp [firstIssue, pollRequiredFields, List.find?, h1, h2, h3, h4, h5, hti] at h
    | true =>
    cases htq : isInstStr vQ with
    | false =>
      simp [firstIssue, pollRequiredFields, List.find?, h1, h2, h3, h4, h5, hti, htq] at h
    | true =>
    cases hto : isInstInt vOw with
    | false =>
      simp [firstIssue, pollRequiredFields, List.find?, h1, h2, h3, h4, h5, hti, htq, hto] at h
    | true =>
    cases htl : isInstList vOpts with
    | false =>
      simp [firstIssue, pollRequiredFields, List.find?, h1, h2, h3, h4, h5,
        hti, htq, hto, htl] at h
    | true =>
      simp [pollFieldViolation, pollRequiredFields, h1, h2, h3, h4, h5,
        hti, htq, hto, htl] at hv

theorem firstListIssue_isSome_of_violation (i : Nat) (polls : List JsonValue)
    (hs : polls.all structuredPoll = true)
    (hv : polls.any pollFieldViolation = true) :
    ∃ k iss, firstListIssue i polls = some (k, iss) := by
  induction polls generalizing i with
  | nil => simp at hv
  | cons p rest ih =>
    simp only [List.all_cons, Bool.and_eq_true] at hs
    cases hfi : firstIssue p with
    | some iss => exact ⟨i, iss, by simp [firstListIssue, hfi]⟩
    | none =>
      simp only [List.any_cons, Bool.or_eq_true] at hv
      cases hv with
      | inl hvp => exact absurd hfi (firstIssue_of_violation p hs.1 hvp)
      | inr hvr =>
        obtain ⟨k, iss, hk⟩ := ih (i + 1) hs.2 hvr
        exact ⟨k, iss, by simp [firstListIssue, hfi, hk]⟩

/-- Claim C3: on a 200 response whose body is a list of (structured) poll
objects of which at least one is missing a required field or has a
mistyped `id`/`question`/`owner_id`/`options`, validation fails fast at
the first violation in poll-major order: the result is a `ValueError`
whose message is the rendering of that first violation and contains
both the offending poll's index and the offending field's name, and no
poll list is returned. -/
theorem fetch_polls_validation_fail_fast (resp : HttpResponse) (polls : List JsonValue)
    (h200 : resp.status = 200) (hb : resp.body = some (.arr polls))
    (hs : polls.all structuredPoll = true)
    (hv : polls.any pollFieldViolation = true) :
    ∃ k iss,
      firstListIssue 0 polls = some (k, iss) ∧
      fetch_polls_with_validation resp = .error (.valueError (renderIssue k iss)) ∧
      strIncludes (toString k) (renderIssue k iss) = true ∧
      strIncludes (issueField iss) (renderIssue k iss) = true := by
  obtain ⟨k, iss, hki⟩ := firstListIssue_isSome_of_violation 0 polls hs hv
  refine ⟨k, iss, hki, ?_, renderIssue_includes_index k iss,
    renderIssue_includes_field k iss⟩
  rw [fetch_polls_with_validation_eq resp polls h200 hb hs, hki]

/-- Witness for C3: poll 0 valid, poll 1 missing `question`. -/
theorem fetch_polls_validation_fail_fast_witness :
    (([.obj [("id", .int 1), ("question", .str "Q1"), ("created_at", .str "t"),
        ("owner_id", .int 7), ("options", .arr [])],
      .obj [("id", .int 2), ("created_at", .null), ("owner_id", .int 1),
        ("options", .arr [])]] : List JsonValue).all structuredPoll = true) ∧
    (([.obj [("id", .int 1), ("question", .str "Q1"), ("created_at", .str "t"),
        ("owner_id", .int 7), ("options", .arr [])],
      .obj [("id", .int 2), ("created_at", .null), ("owner_id", .int 1),
        ("options", .arr [])]] : List JsonValue).any pollFieldViolation = true) ∧
    (∃ k iss,
      firstListIssue 0
          [.obj [("id", .int 1), ("question", .str "Q1"), ("created_at", .str "t"),
            ("owner_id", .int 7), ("options", .arr [])],
          .obj [("id", .int 2), ("created_at", .null), ("owner_id", .int 1),
            ("options", .arr [])]] = some (k, iss) ∧
      fetch_polls_with_validation (HttpResponse.mk 200 (some (.arr
          [.obj [("id", .int 1), ("question", .str "Q1"), ("created_at", .str "t"),
            ("owner_id", .int 7), ("options", .arr [])],
          .obj [("id", .int 2), ("created_at", .null), ("owner_id", .int 1),
            ("options", .arr [])]]))) = .error (.valueError (renderIssue k iss)) ∧
      strIncludes (toString k) (renderIssue k iss) = true ∧
      strIncludes (issueField iss) (renderIssue k iss) = true) :=
  ⟨by rfl, by rfl,
    fetch_polls_validation_fail_fast _ _ rfl rfl (by rfl) (by rfl)⟩

theorem renderIssue_optMissing_includes_optIndex (i j : Nat) (f : String) :
    strIncludes (toString j) (renderIssue i (.optMissing j f)) = true :=
  strIncludes_of_decomp (toString j) (renderIssue i (.optMissing j f))
    ("Poll " ++ (toString i ++ ", option "))
    (" is missing required field: " ++ f) (by simp [renderIssue, strAppend_assoc])

theorem firstListIssue_append (i : Nat) (pre : List JsonValue) (p : JsonValue)
    (post : List JsonValue) (iss : Issue)
    (hpre : pre.all (fun q => (firstIssue q).isNone) = true)
    (hp : firstIssue p = some iss) :
    firstListIssue i (pre ++ p :: post) = some (i + pre.length, iss) := by
  induction pre generalizing i with
  | nil => simp [firstListIssue, hp]
  | cons q t ih =>
    simp only [List.all_cons, Bool.and_eq_true, Option.isNone_iff_eq_none] at hpre
    have h : firstListIssue (i + 1) (t ++ p :: post) = some (i + 1 + t.length, iss) :=
      ih (i + 1) hpre.2
    simp only [List.cons_append, firstListIssue, hpre.1, List.length_cons,
      List.append_eq]
    rw [h]
    simp only [Option.some.injEq, Prod.mk.injEq]
    exact ⟨by omega, trivial⟩

theorem firstOptIssue_spec (opts : List JsonValue) (j0 j : Nat) (f : String)
    (h : firstOptIssue j0 opts = some (.optMissing j f)) :
    j0 ≤ j ∧ ∃ o, opts.get? (j - j0) = some o ∧ optFirstMissing o = some f := by
  induction opts generalizing j0 with
  | nil => simp [firstOptIssue] at h
  | cons o t ih =>
    cases hm : optFirstMissing o with
    | some f' =>
      simp only [firstOptIssue, hm] at h
      injection h with h'
      injection h' with hj hf
      subst hj
      subst hf
      exact ⟨Nat.le_refl _, o, by simp, hm⟩
    | none =>
      simp only [firstOptIssue, hm] at h
      obtain ⟨hle, o', hget, hfm⟩ := ih (j0 + 1) h
      refine ⟨by omega, o', ?_, hfm⟩
      have : j - j0 = (j - (j0 + 1)) + 1 := by omega
      rw [this]
      simpa using hget

theorem firstIssue_optMissing_struct (p : JsonValue) (j : Nat) (f : String)
    (hp : firstIssue p = some (.optMissing j f)) :
    ∃ pf opts o, p = .obj pf ∧ lookupKey "options" pf = some (.arr opts) ∧
      opts.get? j = some o ∧ optFirstMissing o = some f := by
  cases p with
  | null => simp [firstIssue] at hp
  | bool b => simp [firstIssue] at hp
  | int n => simp [firstIssue] at hp
  | str s => simp [firstIssue] at hp
  | arr xs => simp [firstIssue] at hp
  | obj pf =>
    cases hfind : pollRequiredFields.find? (fun g => (lookupKey g pf).isNone) with
    | some g => simp [firstIssue, hfind] at hp
    | none =>
    cases h1 : lookupKey "id" pf with
    | none => simp [firstIssue, hfind, h1] at hp
    | some vId =>
    cases h2 : lookupKey "question" pf with
    | none => simp [firstIssue, hfind, h1, h2] at hp
    | some vQ =>
    cases h4 : lookupKey "owner_id" pf with
    | none => simp [firstIssue, hfind, h1, h2, h4] at hp
    | some vOw =>
    cases h5 : lookupKey "options" pf with
    | none => simp [firstIssue, hfind, h1, h2, h4, h5] at hp
    | some vOpts =>
    cases hti : isInstInt vId with
    | false => simp [firstIssue, hfind, h1, h2, h4, h5, hti] at hp
    | true =>
    cases htq : isInstStr vQ with
    | false => simp [firstIssue, hfind, h1, h2, h4, h5, hti, htq] at hp
    | true =>
    cases hto : isInstInt vOw with
    | false => simp [firstIssue, hfind, h1, h2, h4, h5, hti, htq, hto] at hp
    | true =>
    cases vOpts with
    | arr opts =>
      simp only [firstIssue, hfind, h1, h2, h4, h5, hti, htq, hto, isInstList,
        Bool.not_true, Bool.false_eq_true, if_false, if_true, asList,
        Bool.not_false] at hp
      obtain ⟨hle, o, hget, hfm⟩ := firstOptIssue_spec opts 0 j f hp
      exact ⟨pf, opts, o, rfl, h5, by simpa using hget, hfm⟩
    | null => simp [firstIssue, hfind, h1, h2, h4, h5, hti, htq, hto, isInstList] at hp
    | bool b => simp [firstIssue, hfind, h1, h2, h4, h5, hti, htq, hto, isInstList] at hp
    | int n => simp [firstIssue, hfind, h1, h2, h4, h5, hti, htq, hto, isInstList] at hp
    | str s => simp [firstIssue, hfind, h1, h2, h4, h5, hti, htq, hto, isInstList] at hp
    | obj ofs => simp [firstIssue, hfind, h1, h2, h4, h5, hti, htq, hto, isInstList] at hp

/-- Claim C4 (counterexample): a poll whose option list contains an option
missing `text`, while the poll itself is missing `question`.  The
option's missing field is real, yet the raised error message identifies
only the poll-level violation: it contains neither the option's missing
field name `text` nor the word `option`, refuting the claim for this
input. -/
theorem option_missing_field_counterexample :
    optFirstMissing (.obj [("id", .int 3), ("poll_id", .int 1)]) = some "text" ∧
    fetch_polls_with_validation (HttpResponse.mk 200 (some (.arr
        [.obj [("id", .int 1), ("created_at", .str "t"), ("owner_id", .int 2),
          ("options", .arr [.obj [("id", .int 3), ("poll_id", .int 1)]])]]))) =
      .error (.valueError "Poll at index 0 is missing required field: question") ∧
    strIncludes "text" "Poll at index 0 is missing required field: question" = false ∧
    strIncludes "option" "Poll at index 0 is missing required field: question" = false :=
  ⟨rfl, rfl, rfl, rfl⟩

/-- Claim C4 (amended): when the first violation encountered by the
validator's fail-fast order is an option of poll `pre.length` missing
field `f` (all earlier polls clean), `fetch_polls_with_validation`
fails with the error message identifying the poll index, the option
index and the missing field name — and that option really is the
`j`-th option of that poll and really lacks `f`. -/
theorem option_missing_field_identified (resp : HttpResponse) (pre : List JsonValue)
    (p : JsonValue) (post : List JsonValue) (j : Nat) (f : String)
    (h200 : resp.status = 200) (hb : resp.body = some (.arr (pre ++ p :: post)))
    (hs : (pre ++ p :: post).all structuredPoll = true)
    (hpre : pre.all (fun q => (firstIssue q).isNone) = true)
    (hp : firstIssue p = some (.optMissing j f)) :
    fetch_polls_with_validation resp =
      .error (.valueError (renderIssue pre.length (.optMissing j f))) ∧
    strIncludes (toString pre.length) (renderIssue pre.length (.optMissing j f)) = true ∧
    strIncludes (toString j) (renderIssue pre.length (.optMissing j f)) = true ∧
    strIncludes f (renderIssue pre.length (.optMissing j f)) = true ∧
    ∃ pf opts o, p = .obj pf ∧ lookupKey "options" pf = some (.arr opts) ∧
      opts.get? j = some o ∧ optFirstMissing o = some f := by
  have hfl := firstListIssue_append 0 pre p post _ hpre hp
  rw [Nat.zero_add] at hfl
  refine ⟨?_, renderIssue_includes_index _ _,
    renderIssue_optMissing_includes_optIndex _ _ _,
    renderIssue_includes_field pre.length (.optMissing j f),
    firstIssue_optMissing_struct p j f hp⟩
  rw [fetch_polls_with_validation_eq resp _ h200 hb hs, hfl]

/-- Witness for C4 (amended) at a single poll whose first option lacks
`text`. -/
theorem option_missing_field_identified_witness :
    firstIssue (.obj [("id", .int 1), ("question", .str "Q"), ("created_at", .str "t"),
        ("owner_id", .int 2), ("options", .arr [.obj [("id", .int 3), ("poll_id", .int 9)]])]) =
      some (.optMissing 0 "text") ∧
    (fetch_polls_with_validation (HttpResponse.mk 200 (some (.arr
        ([] ++ (.obj [("id", .int 1), ("question", .str "Q"), ("created_at", .str "t"),
          ("owner_id", .int 2),
          ("options", .arr [.obj [("id", .int 3), ("poll_id", .int 9)]])]) :: [])))) =
      .error (.valueError (renderIssue 0 (.optMissing 0 "text"))) ∧
    strIncludes (toString 0) (renderIssue 0 (.optMissing 0 "text")) = true ∧
    strIncludes (toString 0) (renderIssue 0 (.optMissing 0 "text")) = true ∧
    strIncludes "text" (renderIssue 0 (.optMissing 0 "text")) = true ∧
    ∃ pf opts o,
      (JsonValue.obj [("id", .int 1), ("question", .str "Q"), ("created_at", .str "t"),
        ("owner_id", .int 2),
        ("options", .arr [.obj [("id", .int 3), ("poll_id", .int 9)]])]) = .obj pf ∧
      lookupKey "options" pf = some (.arr opts) ∧
      opts.get? 0 = some o ∧ optFirstMissing o = some "text") :=
  ⟨rfl,
    option_missing_field_identified _ [] _ [] 0 "text" rfl rfl (by rfl) rfl rfl⟩

/-- Claim C7: a 401 response to `vote_on_poll` fails with the Unauthorized
error, regardless of the response body (parseable or not, with or
without a `detail` field). -/
theorem vote_unauthorized_on_401 (b : Option JsonValue) :
    vote_on_poll (HttpResponse.mk 401 b) =
      .error (.valueError "Unauthorized: Invalid or expired access token") := rfl

/-- Claim C8: a 404 response to `vote_on_poll` or to `get_poll_results`
fails with the respective NotFound error, regardless of the body. -/
theorem not_found_on_404 (b : Option JsonValue) :
    vote_on_poll (HttpResponse.mk 404 b) =
      .error (.valueError "Poll or option not found") ∧
    get_poll_results (HttpResponse.mk 404 b) =
      .error (.valueError "Poll not found") :=
  ⟨rfl, rfl⟩

/-- Claim C2 (counterexample): `register_user` on a 500 response with an
unparseable body propagates the JSON decoding error instead of failing
with a fallback `ValueError` mentioning the status code: it raises the
secondary decoding error the claim rules out. -/
theorem register_user_decode_error_counterexample :
    register_user (HttpResponse.mk 500 none) = .error .jsonDecodeError ∧
    (match register_user (HttpResponse.mk 500 none) with
      | .error (.valueError _) => false
      | _ => true) = true :=
  ⟨rfl, rfl⟩

/-- Claim C2 (amended): on an empty or unparseable error body,
`fetch_polls`, `vote_on_poll` and `get_poll_results` never raise a
secondary decoding error: outside the specifically-mapped statuses
(401/404 on vote, 404 on results, whose fixed messages do not carry the
code) they fail with a fallback `ValueError` whose message contains the
numeric status code; `register_user`, by contrast, propagates the JSON
decoding error. -/
theorem fallback_error_message_on_unparseable_body (s : Nat) (hs : s ≠ 200) :
    (fetch_polls (HttpResponse.mk s none) =
      .error (.valueError ("Failed to fetch polls: " ++ ("HTTP " ++ toString s))) ∧
      strIncludes (toString s) ("Failed to fetch polls: " ++ ("HTTP " ++ toString s)) = true) ∧
    (s ≠ 401 → s ≠ 404 →
      vote_on_poll (HttpResponse.mk s none) =
        .error (.valueError ("Failed to vote on poll: " ++ ("HTTP " ++ toString s))) ∧
      strIncludes (toString s) ("Failed to vote on poll: " ++ ("HTTP " ++ toString s)) = true) ∧
    (s ≠ 404 →
      get_poll_results (HttpResponse.mk s none) =
        .error (.valueError ("Failed to get poll results: " ++ ("HTTP " ++ toString s))) ∧
      strIncludes (toString s) ("Failed to get poll results: " ++ ("HTTP " ++ toString s)) = true) ∧
    vote_on_poll (HttpResponse.mk 401 none) =
      .error (.valueError "Unauthorized: Invalid or expired access token") ∧
    vote_on_poll (HttpResponse.mk 404 none) =
      .error (.valueError "Poll or option not found") ∧
    get_poll_results (HttpResponse.mk 404 none) =
      .error (.valueError "Poll not found") ∧
    register_user (HttpResponse.mk s none) = .error .jsonDecodeError := by
  have h200 : (s == 200) = false := by simpa using hs
  refine ⟨⟨?_, ?_⟩, ?_, ?_, rfl, rfl, rfl, ?_⟩
  · simp [fetch_polls, h200, errMessageFallback]
  · exact strIncludes_of_decomp (toString s) _
      ("Failed to fetch polls: " ++ "HTTP ") ""
      (by rw [strAppend_empty, ← strAppend_assoc])
  · intro h401 h404
    have hb401 : (s == 401) = false := by simpa using h401
    have hb404 : (s == 404) = false := by simpa using h404
    refine ⟨?_, ?_⟩
    · simp [vote_on_poll, h200, hb401, hb404, errMessageFallback]
    · exact strIncludes_of_decomp (toString s) _
        ("Failed to vote on poll: " ++ "HTTP ") ""
        (by rw [strAppend_empty, ← strAppend_assoc])
  · intro h404
    have hb404 : (s == 404) = false := by simpa using h404
    refine ⟨?_, ?_⟩
    · simp [get_poll_results, h200, hb404, errMessageFallback]
    · exact strIncludes_of_decomp (toString s) _
        ("Failed to get poll results: " ++ "HTTP ") ""
        (by rw [strAppend_empty, ← strAppend_assoc])
  · simp [register_user, h200]

/-- Witness for C2 (amended) at status 500. -/
theorem fallback_error_message_on_unparseable_body_witness :
    (500 ≠ 200) ∧
    ((fetch_polls (HttpResponse.mk 500 none) =
      .error (.valueError ("Failed to fetch polls: " ++ ("HTTP " ++ toString 500))) ∧
      strIncludes (toString 500) ("Failed to fetch polls: " ++ ("HTTP " ++ toString 500)) = true) ∧
    (500 ≠ 401 → 500 ≠ 404 →
      vote_on_poll (HttpResponse.mk 500 none) =
        .error (.valueError ("Failed to vote on poll: " ++ ("HTTP " ++ toString 500))) ∧
      strIncludes (toString 500) ("Failed to vote on poll: " ++ ("HTTP " ++ toString 500)) = true) ∧
    (500 ≠ 404 →
      get_poll_results (HttpResponse.mk 500 none) =
        .error (.valueError ("Failed to get poll results: " ++ ("HTTP " ++ toString 500))) ∧
      strIncludes (toString 500) ("Failed to get poll results: " ++ ("HTTP " ++ toString 500)) = true) ∧
    vote_on_poll (HttpResponse.mk 401 none) =
      .error (.valueError "Unauthorized: Invalid or expired access token") ∧
    vote_on_poll (HttpResponse.mk 404 none) =
      .error (.valueError "Poll or option not found") ∧
    get_poll_results (HttpResponse.mk 404 none) =
      .error (.valueError "Poll not found") ∧
    register_user (HttpResponse.mk 500 none) = .error .jsonDecodeError) :=
  ⟨by decide, fallback_error_message_on_unparseable_body 500 (by decide)⟩

/-- Claim C6: on a non-200 response whose body decodes to a JSON object with
an absent-or-string `detail` field, `register_user` fails with the
DuplicateUsername `ValueError` exactly when the status is 400 and the
detail text contains "Username already registered"; otherwise it fails
with the generic registration-failed `ValueError` carrying the detail
text, or "Unknown error" when `detail` is absent. -/
theorem register_user_error_mapping (resp : HttpResponse) (fs : List (String × JsonValue))
    (hne : resp.status ≠ 200) (hb : resp.body = some (.obj fs))
    (hdet : lookupKey "detail" fs = none ∨ ∃ s, lookupKey "detail" fs = some (.str s)) :
    register_user resp = .error (.valueError (
      match lookupKey "detail" fs with
      | some (.str s) =>
        if resp.status = 400 ∧ strIncludes "Username already registered" s = true then
          "Username already registered"
        else
          "Registration failed: " ++ s
      | _ => "Registration failed: Unknown error")) := by
  have h200 : (resp.status == 200) = false := by simpa using hne
  have hemp : strIncludes "Username already registered" "" = false := rfl
  rcases hdet with hd | ⟨s, hd⟩
  · by_cases h400 : resp.status = 400
    · simp [register_user, h200, hb, hd, h400, dictGet, pyIn, hemp, pyStr,
        Bind.bind, Except.bind, pure, Except.pure, throw, throwThe, MonadExceptOf.throw]
    · have hb400 : (resp.status == 400) = false := by simpa using h400
      simp [register_user, h200, hb, hd, h400, hb400, dictGet, pyStr,
        Bind.bind, Except.bind, pure, Except.pure, throw, throwThe, MonadExceptOf.throw]
  · by_cases h400 : resp.status = 400
    · by_cases hdup : strIncludes "Username already registered" s = true
      · simp [register_user, h200, hb, hd, h400, hdup, dictGet, pyIn, pyStr,
          Bind.bind, Except.bind, pure, Except.pure, throw, throwThe, MonadExceptOf.throw]
      · simp only [Bool.not_eq_true] at hdup
        simp [register_user, h200, hb, hd, h400, hdup, dictGet, pyIn, pyStr,
          Bind.bind, Except.bind, pure, Except.pure, throw, throwThe, MonadExceptOf.throw]
    · have hb400 : (resp.status == 400) = false := by simpa using h400
      simp [register_user, h200, hb, hd, h400, hb400, dictGet, pyIn, pyStr,
        Bind.bind, Except.bind, pure, Except.pure, throw, throwThe, MonadExceptOf.throw]

/-- Witness for C6: status 400 with detail "Username already
registered" raises the DuplicateUsername error. -/
theorem register_user_error_mapping_witness :
    ((400 : Nat) ≠ 200) ∧
    ((∃ s, lookupKey "detail" [("detail", JsonValue.str "Username already registered")] =
        some (.str s))) ∧
    register_user (HttpResponse.mk 400
        (some (.obj [("detail", .str "Username already registered")]))) =
      .error (.valueError (
        match lookupKey "detail" [("detail", JsonValue.str "Username already registered")] with
        | some (.str s) =>
          if (400 : Nat) = 400 ∧ strIncludes "Username already registered" s = true then
            "Username already registered"
          else
            "Registration failed: " ++ s
        | _ => "Registration failed: Unknown error")) :=
  ⟨by decide, ⟨"Username already registered", rfl⟩,
    register_user_error_mapping
      (HttpResponse.mk 400 (some (.obj [("detail", .str "Username already registered")])))
      [("detail", .str "Username already registered")]
      (by decide) rfl (Or.inr ⟨"Username already registered", rfl⟩)⟩

theorem checkMissingField_obj (fs : List (String × JsonValue)) (fields : List String) :
    checkMissingField (.obj fs) fields =
      match fields.find? (fun f => (lookupKey f fs).isNone) with
      | some f => .error (.valueError ("Invalid response: missing field '" ++ f ++ "'"))
      | none => .ok () := by
  induction fields with
  | nil => rfl
  | cons f rest ih =>
    cases h : lookupKey f fs with
    | none =>
      simp [checkMissingField, pyIn, h, Bind.bind, Except.bind, pure, Except.pure,
        List.find?, throw, throwThe, MonadExceptOf.throw]
    | some v =>
      simp [checkMissingField, pyIn, h, Bind.bind, Except.bind, pure, Except.pure,
        List.find?, ih]

/-- Claim C10: the success-path validation of `vote_on_poll` is
presence-only: a 200 response whose JSON body is an object carrying the
keys `id`, `user_id`, `option_id`, `created_at` is returned unchanged,
whatever the types of the associated values. -/
theorem vote_success_presence_only (resp : HttpResponse) (fs : List (String × JsonValue))
    (h200 : resp.status = 200) (hb : resp.body = some (.obj fs))
    (h1 : (lookupKey "id" fs).isSome = true)
    (h2 : (lookupKey "user_id" fs).isSome = true)
    (h3 : (lookupKey "option_id" fs).isSome = true)
    (h4 : (lookupKey "created_at" fs).isSome = true) :
    vote_on_poll resp = .ok (.obj fs) := by
  cases k1 : lookupKey "id" fs with
  | none => rw [k1] at h1; simp at h1
  | some v1 =>
  cases k2 : lookupKey "user_id" fs with
  | none => rw [k2] at h2; simp at h2
  | some v2 =>
  cases k3 : lookupKey "option_id" fs with
  | none => rw [k3] at h3; simp at h3
  | some v3 =>
  cases k4 : lookupKey "created_at" fs with
  | none => rw [k4] at h4; simp at h4
  | some v4 =>
    simp [vote_on_poll, h200, hb, checkMissingField_obj, List.find?, k1, k2, k3, k4,
      Bind.bind, Except.bind, pure, Except.pure]

/-- Witness for C10: every required key present, each with an
unexpected value type, is still returned unchanged. -/
theorem vote_success_presence_only_witness :
    (lookupKey "id" [("id", JsonValue.null), ("user_id", .str "x"),
        ("option_id", .arr []), ("created_at", .int 0)]).isSome = true ∧
    vote_on_poll (HttpResponse.mk 200 (some (.obj [("id", JsonValue.null),
        ("user_id", .str "x"), ("option_id", .arr []), ("created_at", .int 0)]))) =
      .ok (.obj [("id", JsonValue.null), ("user_id", .str "x"),
        ("option_id", .arr []), ("created_at", .int 0)]) :=
  ⟨rfl, vote_success_presence_only _ _ rfl rfl rfl rfl rfl rfl⟩

theorem checkResultFields_obj (k : Nat) (fs : List (String × JsonValue))
    (fields : List String) :
    checkResultFields k (.obj fs) fields =
      match fields.find? (fun f => (lookupKey f fs).isNone) with
      | some f =>
        .error (.valueError
          ("Invalid response: result " ++ toString k ++ " missing field '" ++ f ++ "'"))
      | none => .ok () := by
  induction fields with
  | nil => rfl
  | cons f rest ih =>
    cases h : lookupKey f fs with
    | none =>
      simp [checkResultFields, pyIn, h, Bind.bind, Except.bind, pure, Except.pure,
        List.find?, throw, throwThe, MonadExceptOf.throw]
    | some v =>
      simp [checkResultFields, pyIn, h, Bind.bind, Except.bind, pure, Except.pure,
        List.find?, ih]

theorem checkResultEntry_eq (k : Nat) (r : JsonValue) (hr : isObjB r = true) :
    checkResultEntry k r =
      match entryFirstIssue k r with
      | none => .ok ()
      | some iss => .error (.valueError (renderRIssue iss)) := by
  cases r with
  | null => simp [isObjB] at hr
  | bool b => simp [isObjB] at hr
  | int n => simp [isObjB] at hr
  | str s => simp [isObjB] at hr
  | arr xs => simp [isObjB] at hr
  | obj fs =>
    cases m1 : lookupKey "option_id" fs with
    | none =>
      simp [checkResultEntry, checkResultFields_obj, entryFirstIssue,
        resultRequiredFields, List.find?, m1, Bind.bind, Except.bind, pure, Except.pure,
        renderRIssue]
    | some v1 =>
    cases m2 : lookupKey "text" fs with
    | none =>
      simp [checkResultEntry, checkResultFields_obj, entryFirstIssue,
        resultRequiredFields, List.find?, m1, m2, Bind.bind, Except.bind, pure, Except.pure,
        renderRIssue]
    | some v2 =>
    cases m3 : lookupKey "vote_count" fs with
    | none =>
      simp [checkResultEntry, checkResultFields_obj, entryFirstIssue,
        resultRequiredFields, List.find?, m1, m2, m3, Bind.bind, Except.bind, pure,
        Except.pure, renderRIssue]
    | some v3 =>
    cases t1 : isInstInt v1 with
    | false =>
      simp [checkResultEntry, checkResultFields_obj, entryFirstIssue,
        resultRequiredFields, List.find?, m1, m2, m3, t1, pySubscript, Bind.bind,
        Except.bind, pure, Except.pure, renderRIssue, throw, throwThe,
        MonadExceptOf.throw, strAppend_assoc]
    | true =>
    cases t2 : isInstStr v2 with
    | false =>
      simp [checkResultEntry, checkResultFields_obj, entryFirstIssue,
        resultRequiredFields, List.find?, m1, m2, m3, t1, t2, pySubscript, Bind.bind,
        Except.bind, pure, Except.pure, renderRIssue, throw, throwThe,
        MonadExceptOf.throw, strAppend_assoc]
    | true =>
    cases t3 : isInstInt v3 with
    | false =>
      simp [checkResultEntry, checkResultFields_obj, entryFirstIssue,
        resultRequiredFields, List.find?, m1, m2, m3, t1, t2, t3, pySubscript, Bind.bind,
        Except.bind, pure, Except.pure, renderRIssue, throw, throwThe,
        MonadExceptOf.throw, strAppend_assoc]
    | true =>
      simp [checkResultEntry, checkResultFields_obj, entryFirstIssue,
        resultRequiredFields, List.find?, m1, m2, m3, t1, t2, t3, pySubscript, Bind.bind,
        Except.bind, pure, Except.pure]

theorem checkResultEntries_eq (k : Nat) (rs : List JsonValue)
    (hs : rs.all isObjB = true) :
    checkResultEntries k rs =
      match entriesFirstIssue k rs with
      | none => .ok ()
      | some iss => .error (.valueError (renderRIssue iss)) := by
  induction rs generalizing k with
  | nil => rfl
  | cons r rest ih =>
    simp only [List.all_cons, Bool.and_eq_true] at hs
    rw [show checkResultEntries k (r :: rest) =
        (do
          checkResultEntry k r
          checkResultEntries (k + 1) rest) from rfl]
    rw [checkResultEntry_eq k r hs.1]
    cases hfi : entryFirstIssue k r with
    | some iss =>
      simp [hfi, entriesFirstIssue, Bind.bind, Except.bind, pure, Except.pure]
    | none =>
      simp [hfi, entriesFirstIssue, Bind.bind, Except.bind, pure, Except.pure,
        ih (k + 1) hs.2]

theorem get_poll_results_eq (resp : HttpResponse) (fs : List (String × JsonValue))
    (h200 : resp.status = 200) (hb : resp.body = some (.obj fs))
    (hstruct : structuredResults (.obj fs) = true) :
    get_poll_results resp =
      match resultsFirstIssue (.obj fs) with
      | none => .ok (.obj fs)
      | some iss => .error (.valueError (renderRIssue iss)) := by
  cases m1 : lookupKey "poll_id" fs with
  | none =>
    simp [get_poll_results, h200, hb, checkMissingField_obj, resultsFirstIssue,
      resultsRequiredFields, List.find?, m1, Bind.bind, Except.bind, pure, Except.pure,
      renderRIssue]
  | some v1 =>
  cases m2 : lookupKey "question" fs with
  | none =>
    simp [get_poll_results, h200, hb, checkMissingField_obj, resultsFirstIssue,
      resultsRequiredFields, List.find?, m1, m2, Bind.bind, Except.bind, pure,
      Except.pure, renderRIssue]
  | some v2 =>
  cases m3 : lookupKey "results" fs with
  | none =>
    simp [get_poll_results, h200, hb, checkMissingField_obj, resultsFirstIssue,
      resultsRequiredFields, List.find?, m1, m2, m3, Bind.bind, Except.bind, pure,
      Except.pure, renderRIssue]
  | some rv =>
  cases rv with
  | arr es =>
    have hall : es.all isObjB = true := by
      simpa [structuredResults, m3] using hstruct
    simp only [get_poll_results, h200, hb, checkMissingField_obj, resultsFirstIssue,
      resultsRequiredFields, List.find?, m1, m2, m3, pySubscript, isInstList, asList,
      Bind.bind, Except.bind, pure, Except.pure, checkResultEntries_eq 0 es hall,
      Option.isNone_some, Bool.not_true, Bool.not_false, beq_self_eq_true,
      ite_true, ite_false]
    cases hei : entriesFirstIssue 0 es with
    | none => simp [hei]
    | some iss => simp [hei]
  | null =>
    simp [get_poll_results, h200, hb, checkMissingField_obj, resultsFirstIssue,
      resultsRequiredFields, List.find?, m1, m2, m3, pySubscript, isInstList,
      Bind.bind, Except.bind, pure, Except.pure, renderRIssue, throw, throwThe,
      MonadExceptOf.throw]
  | bool b =>
    simp [get_poll_results, h200, hb, checkMissingField_obj, resultsFirstIssue,
      resultsRequiredFields, List.find?, m1, m2, m3, pySubscript, isInstList,
      Bind.bind, Except.bind, pure, Except.pure, renderRIssue, throw, throwThe,
      MonadExceptOf.throw]
  | int n =>
    simp [get_poll_results, h200, hb, checkMissingField_obj, resultsFirstIssue,
      resultsRequiredFields, List.find?, m1, m2, m3, pySubscript, isInstList,
      Bind.bind, Except.bind, pure, Except.pure, renderRIssue, throw, throwThe,
      MonadExceptOf.throw]
  | str s =>
    simp [get_poll_results, h200, hb, checkMissingField_obj, resultsFirstIssue,
      resultsRequiredFields, List.find?, m1, m2, m3, pySubscript, isInstList,
      Bind.bind, Except.bind, pure, Except.pure, renderRIssue, throw, throwThe,
      MonadExceptOf.throw]
  | obj ofs =>
    simp [get_poll_results, h200, hb, checkMissingField_obj, resultsFirstIssue,
      resultsRequiredFields, List.find?, m1, m2, m3, pySubscript, isInstList,
      Bind.bind, Except.bind, pure, Except.pure, renderRIssue, throw, throwThe,
      MonadExceptOf.throw]

theorem renderRIssue_identifies (iss : RIssue) :
    match iss with
    | .topMissing f => strIncludes f (renderRIssue (.topMissing f)) = true
    | .notList => True
    | .entryMissing k f =>
      strIncludes (toString k) (renderRIssue (.entryMissing k f)) = true ∧
      strIncludes f (renderRIssue (.entryMissing k f)) = true
    | .entryType k f t =>
      strIncludes (toString k) (renderRIssue (.entryType k f t)) = true ∧
      strIncludes f (renderRIssue (.entryType k f t)) = true := by
  cases iss with
  | topMissing f =>
    exact strIncludes_of_decomp f (renderRIssue (.topMissing f))
      "Invalid response: missing field '" "'"
      (by simp [renderRIssue, strAppend_assoc])
  | notList => trivial
  | entryMissing k f =>
    refine ⟨?_, ?_⟩
    · exact strIncludes_of_decomp (toString k) (renderRIssue (.entryMissing k f))
        "Invalid response: result " (" missing field '" ++ (f ++ "'"))
        (by simp [renderRIssue, strAppend_assoc])
    · exact strIncludes_of_decomp f (renderRIssue (.entryMissing k f))
        ("Invalid response: result " ++ (toString k ++ " missing field '")) "'"
        (by simp [renderRIssue, strAppend_assoc])
  | entryType k f t =>
    refine ⟨?_, ?_⟩
    · exact strIncludes_of_decomp (toString k) (renderRIssue (.entryType k f t))
        "Invalid response: result " (" '" ++ (f ++ ("' must be " ++ t)))
        (by simp [renderRIssue, strAppend_assoc])
    · exact strIncludes_of_decomp f (renderRIssue (.entryType k f t))
        ("Invalid response: result " ++ (toString k ++ " '")) ("' must be " ++ t)
        (by simp [renderRIssue, strAppend_assoc])

/-- Claim C5: on a 200 response to `get_poll_results` whose body is a
(structured) JSON object, the result is exactly determined by the first
structural violation in the source's check order — presence of
`poll_id`/`question`/`results`, `results` being a list, then for each
entry presence of `option_id`/`text`/`vote_count` and their types — a
fully valid structure being returned unchanged, and any entry-level
violation producing a fail-fast error whose message contains the
offending result index and field name. -/
theorem get_poll_results_validation (resp : HttpResponse) (fs : List (String × JsonValue))
    (h200 : resp.status = 200) (hb : resp.body = some (.obj fs))
    (hstruct : structuredResults (.obj fs) = true) :
    (get_poll_results resp =
      match resultsFirstIssue (.obj fs) with
      | none => .ok (.obj fs)
      | some iss => .error (.valueError (renderRIssue iss))) ∧
    (match resultsFirstIssue (.obj fs) with
      | none => True
      | some iss =>
        match iss with
        | .topMissing f => strIncludes f (renderRIssue (.topMissing f)) = true
        | .notList => True
        | .entryMissing k f =>
          strIncludes (toString k) (renderRIssue (.entryMissing k f)) = true ∧
          strIncludes f (renderRIssue (.entryMissing k f)) = true
        | .entryType k f t =>
          strIncludes (toString k) (renderRIssue (.entryType k f t)) = true ∧
          strIncludes f (renderRIssue (.entryType k f t)) = true) := by
  refine ⟨get_poll_results_eq resp fs h200 hb hstruct, ?_⟩
  cases h : resultsFirstIssue (.obj fs) with
  | none => trivial
  | some iss => exact renderRIssue_identifies iss

/-- Witness for C5 at the spec's scenario: `poll_id` 1, question "Q?",
one entry with `option_id` 2, text "Yes", `vote_count` 5 — returned
unchanged. -/
theorem get_poll_results_validation_witness :
    structuredResults (.obj [("poll_id", .int 1), ("question", .str "Q?"),
      ("results", .arr [.obj [("option_id", .int 2), ("text", .str "Yes"),
        ("vote_count", .int 5)]])]) = true ∧
    ((get_poll_results (HttpResponse.mk 200 (some (.obj [("poll_id", .int 1),
        ("question", .str "Q?"),
        ("results", .arr [.obj [("option_id", .int 2), ("text", .str "Yes"),
          ("vote_count", .int 5)]])]))) =
      match resultsFirstIssue (.obj [("poll_id", .int 1), ("question", .str "Q?"),
        ("results", .arr [.obj [("option_id", .int 2), ("text", .str "Yes"),
          ("vote_count", .int 5)]])]) with
      | none => .ok (.obj [("poll_id", .int 1), ("question", .str "Q?"),
          ("results", .arr [.obj [("option_id", .int 2), ("text", .str "Yes"),
            ("vote_count", .int 5)]])])
      | some iss => .error (.valueError (renderRIssue iss))) ∧
    (match resultsFirstIssue (.obj [("poll_id", .int 1), ("question", .str "Q?"),
        ("results", .arr [.obj [("option_id", .int 2), ("text", .str "Yes"),
          ("vote_count", .int 5)]])]) with
      | none => True
      | some iss =>
        match iss with
        | .topMissing f => strIncludes f (renderRIssue (.topMissing f)) = true
        | .notList => True
        | .entryMissing k f =>
          strIncludes (toString k) (renderRIssue (.entryMissing k f)) = true ∧
          strIncludes f (renderRIssue (.entryMissing k f)) = true
        | .entryType k f t =>
          strIncludes (toString k) (renderRIssue (.entryType k f t)) = true ∧
          strIncludes f (renderRIssue (.entryType k f t)) = true)) :=
  ⟨rfl, get_poll_results_validation
    (HttpResponse.mk 200 (some (.obj [("poll_id", .int 1), ("question", .str "Q?"),
      ("results", .arr [.obj [("option_id", .int 2), ("text", .str "Yes"),
        ("vote_count", .int 5)]])])))
    [("poll_id", .int 1), ("question", .str "Q?"),
      ("results", .arr [.obj [("option_id", .int 2), ("text", .str "Yes"),
        ("vote_count", .int 5)]])]
    rfl rfl rfl⟩
